import Mathlib

/-!
# Verification of the SlowRvbBass audio-effects backend

A shallow embedding of `AP_backend.py`: the identity scheme for effect
variants (`uuid5` over a suffix string, truncated to 8 hex characters), the
effect-chain compilation in `apply_audio_effects`, the endpoint-level
behaviour of `/upload`, `/effects`, `/stream/{id}` and `/download/{id}`, and
the error classification of the two downloader adapters.

Python floats are modelled as rationals (the comparisons the code performs on
them — equality with `1.0`, comparison with `0` — are exact), local files as a
list of path strings, and the external tools through the files they are
invoked to produce.  `uuid.uuid5` is implemented in full (SHA-1 over the DNS
namespace bytes followed by the UTF-8 name), so identifier collisions are
facts about the real derivation.
-/

set_option maxRecDepth 40000

namespace APBackend

/-! ## SHA-1 and uuid5 (the identity scheme's hash) -/

/-- Truncate to a 32-bit word. -/
def w32 (n : Nat) : Nat := n % 4294967296

/-- Rotate a 32-bit word left by `b` bits. -/
def rotl (b n : Nat) : Nat := (w32 (n <<< b)) ||| (n >>> (32 - b))

/-- `k` bytes of `n`, big-endian. -/
def beBytes : Nat → Nat → List Nat
  | 0, _ => []
  | k + 1, n => ((n >>> (8 * k)) % 256) :: beBytes k n

/-- SHA-1 padding: append `0x80`, zero bytes to 56 mod 64, then the 8-byte
big-endian bit length. -/
def sha1pad (msg : List Nat) : List Nat :=
  msg ++ 128 :: List.replicate ((119 - msg.length % 64) % 64) 0 ++ beBytes 8 (msg.length * 8)

/-- Group bytes into 32-bit big-endian words. -/
def toWords : List Nat → List Nat
  | a :: b :: c :: d :: rest => (((a * 256 + b) * 256 + c) * 256 + d) :: toWords rest
  | _ => []

/-- Split a word list into chunks of 16 (fuel-driven). -/
def chunks16 : Nat → List Nat → List (List Nat)
  | 0, _ => []
  | _, [] => []
  | fuel + 1, ws => ws.take 16 :: chunks16 fuel (ws.drop 16)

/-- Extend the message schedule: the accumulator holds the words most recent
first, so `W.tminus k` is `acc.getD (k-1) 0`. -/
def extendW : List Nat → Nat → List Nat
  | acc, 0 => acc
  | acc, n + 1 =>
    extendW (rotl 1 (acc.getD 2 0 ^^^ acc.getD 7 0 ^^^ acc.getD 13 0 ^^^ acc.getD 15 0) :: acc) n

/-- The SHA-1 round constant for round `t`. -/
def sha1K (t : Nat) : Nat :=
  if t < 20 then 0x5A827999 else if t < 40 then 0x6ED9EBA1
  else if t < 60 then 0x8F1BBCDC else 0xCA62C1D6

/-- The SHA-1 round function for round `t`. -/
def sha1F (t b c d : Nat) : Nat :=
  if t < 20 then (b &&& c) ||| ((0xFFFFFFFF ^^^ b) &&& d)
  else if t < 40 then b ^^^ c ^^^ d
  else if t < 60 then (b &&& c) ||| (b &&& d) ||| (c &&& d)
  else b ^^^ c ^^^ d

/-- The five-word SHA-1 chaining state. -/
structure SHA1State where
  a : Nat
  b : Nat
  c : Nat
  d : Nat
  e : Nat
deriving DecidableEq

/-- One SHA-1 compression round. -/
def sha1Round (s : SHA1State) (tw : Nat × Nat) : SHA1State :=
  ⟨w32 (rotl 5 s.a + sha1F tw.1 s.b s.c s.d + s.e + sha1K tw.1 + tw.2),
   s.a, rotl 30 s.b, s.c, s.d⟩

/-- Process one 16-word block. -/
def sha1Block (s : SHA1State) (block : List Nat) : SHA1State :=
  let ws := (extendW block.reverse 64).reverse
  let r := (ws.enum.map (fun p => (p.1, p.2))).foldl sha1Round s
  ⟨w32 (s.a + r.a), w32 (s.b + r.b), w32 (s.c + r.c), w32 (s.d + r.d), w32 (s.e + r.e)⟩

/-- The SHA-1 initialization vector. -/
def sha1Init : SHA1State := ⟨0x67452301, 0xEFCDAB89, 0x98BADCFE, 0x10325476, 0xC3D2E1F0⟩

/-- SHA-1 of a byte list: the 20-byte digest. -/
def sha1 (msg : List Nat) : List Nat :=
  let ws := toWords (sha1pad msg)
  let f := (chunks16 ws.length ws).foldl sha1Block sha1Init
  beBytes 4 f.a ++ beBytes 4 f.b ++ beBytes 4 f.c ++ beBytes 4 f.d ++ beBytes 4 f.e

/-- UTF-8 encoding of one character. -/
def utf8Bytes (ch : Char) : List Nat :=
  let n := ch.toNat
  if n < 128 then [n]
  else if n < 2048 then [192 ||| (n >>> 6), 128 ||| (n &&& 63)]
  else if n < 65536 then
    [224 ||| (n >>> 12), 128 ||| ((n >>> 6) &&& 63), 128 ||| (n &&& 63)]
  else
    [240 ||| (n >>> 18), 128 ||| ((n >>> 12) &&& 63), 128 ||| ((n >>> 6) &&& 63),
     128 ||| (n &&& 63)]

/-- UTF-8 encoding of a string. -/
def strBytes (s : String) : List Nat := (s.data.map utf8Bytes).flatten

/-- The bytes of `uuid.NAMESPACE_DNS` (6ba7b810-9dad-11d1-80b4-00c04fd430c8). -/
def namespaceDNS : List Nat :=
  [0x6b, 0xa7, 0xb8, 0x10, 0x9d, 0xad, 0x11, 0xd1,
   0x80, 0xb4, 0x00, 0xc0, 0x4f, 0xd4, 0x30, 0xc8]

/-- RFC 4122 version/variant patching: byte 6 gets version 5, byte 8 the
variant bits. -/
def patchByte (i b : Nat) : Nat :=
  if i = 6 then (b &&& 15) ||| 80 else if i = 8 then (b &&& 63) ||| 128 else b

/-- The 16 bytes of `uuid.uuid5(uuid.NAMESPACE_DNS, name)`. -/
def uuid5Bytes (name : List Nat) : List Nat :=
  ((sha1 (namespaceDNS ++ name)).take 16).enum.map (fun p => patchByte p.1 p.2)

/-- Lowercase hex digit. -/
def hexDigitChar (n : Nat) : Char :=
  if n < 10 then Char.ofNat (48 + n) else Char.ofNat (87 + n)

/-- Two hex characters of one byte. -/
def byteHexChars (b : Nat) : List Char := [hexDigitChar (b >>> 4), hexDigitChar (b &&& 15)]

/-- Hex characters of a byte list (`bytes.hex()` / `UUID.hex`). -/
def bytesHexChars (bs : List Nat) : List Char := (bs.map byteHexChars).flatten

/-! ## Identity scheme (`/effects`, lines 160–161)

`suffix = "rawcopy" if (speed == 1.0 and reverb == 0.0 and not bass_boost)
else f"{speed}_{reverb}_{bass_boost}"`, and
`effects_id = uuid5(NAMESPACE_DNS, f"{audio_id}_{suffix}").hex[:8]`. -/

/-- Python `str` of a bool, as used by the f-string. -/
def pyBoolStr : Bool → String
  | true => "True"
  | false => "False"

/-- Integer part of a nonnegative rational, computed from its fraction. -/
def ratIntPart (q : ℚ) : Nat := q.num.toNat / q.den

/-- Decimal digits of a fractional part in `[0,1)`, fuel-limited (Python's
`repr` of a float prints at most 17 significant digits). -/
def fracChars : Nat → ℚ → List Char
  | 0, _ => []
  | fuel + 1, q =>
    if q = 0 then []
    else
      Char.ofNat (48 + ratIntPart (q * 10)) ::
        fracChars fuel (q * 10 - (ratIntPart (q * 10) : ℚ))

/-- Python `str` of a float with a terminating decimal expansion: integer
part, a dot, and the fractional digits (`2.0` prints as `"2.0"`, `1.5` as
`"1.5"`). -/
def pyFloatStr (q : ℚ) : String :=
  let aq := if q.num < 0 then -q else q
  let fr := fracChars 17 (aq - (ratIntPart aq : ℚ))
  (if q.num < 0 then "-" else "") ++ toString (ratIntPart aq) ++ "." ++
    (if fr = [] then "0" else String.mk fr)

/-- The suffix hashed into the variant identifier: the literal sentinel
`"rawcopy"` for the no-op tuple, the formatted parameter triple otherwise. -/
def suffixOf (speed reverb : ℚ) (bass_boost : Bool) : String :=
  if speed = 1 ∧ reverb = 0 ∧ bass_boost = false then "rawcopy"
  else pyFloatStr speed ++ "_" ++ pyFloatStr reverb ++ "_" ++ pyBoolStr bass_boost

/-- The name string fed to `uuid5`: `f"{audio_id}_{suffix}"`. -/
def variantName (audio_id : String) (speed reverb : ℚ) (bass_boost : Bool) : String :=
  audio_id ++ "_" ++ suffixOf speed reverb bass_boost

/-- `uuid5(NAMESPACE_DNS, name).hex[:8]` as characters. -/
def idChars (name : String) : List Char :=
  (bytesHexChars (uuid5Bytes (strBytes name))).take 8

/-- The effects identifier derived for `(audio_id, speed, reverb, bass_boost)`. -/
def effectsIdOf (audio_id : String) (speed reverb : ℚ) (bass_boost : Bool) : String :=
  String.mk (idChars (variantName audio_id speed reverb bass_boost))

/-! ## Requests and defaulting (`EffectsRequest`, lines 42–46)

`speed`, `reverb` and `bass_boost` are optional fields with defaults
`1.0`, `0.0` and `False`; an omitted field takes its default. -/

/-- A parsed `/effects` request after Pydantic defaulting. -/
structure EffectsRequest where
  audio_id : String
  speed : ℚ
  reverb : ℚ
  bass_boost : Bool
deriving DecidableEq

/-- Build an `EffectsRequest` from a JSON body in which each parameter field
may be omitted (`none`): omitted fields take the declared defaults. -/
def mkEffectsRequest (audio_id : String) (speed reverb : Option ℚ)
    (bass_boost : Option Bool) : EffectsRequest :=
  ⟨audio_id, speed.getD 1, reverb.getD 0, bass_boost.getD false⟩

/-- The identifier the `/effects` handler derives for a request. -/
def requestEffectsId (req : EffectsRequest) : String :=
  effectsIdOf req.audio_id req.speed req.reverb req.bass_boost

/-! ## Effect-chain compilation (`apply_audio_effects`, lines 98–113) -/

/-- One `pysndfx` stage appended to the chain. -/
inductive Stage
  | tempo (factor : ℚ)
  | reverb (reverberance : ℚ)
  | bass (gain : ℤ)
  | lowpass (frequency : ℕ)
deriving DecidableEq

/-- The ordered stage list built by `apply_audio_effects`: tempo when
`speed != 1.0`, reverb when `reverb > 0`, bass when `bass_boost`, and an
unconditional `lowpass(3000)` appended last. -/
def effectsChain (speed reverb : ℚ) (bass_boost : Bool) : List Stage :=
  ((if speed ≠ 1 then [Stage.tempo speed] else []) ++
   (if reverb > 0 then [Stage.reverb reverb] else []) ++
   (if bass_boost then [Stage.bass 10] else [])) ++ [Stage.lowpass 3000]

/-- The factors of the tempo stages of a chain. -/
def tempoFactors (stages : List Stage) : List ℚ :=
  stages.filterMap (fun s => match s with | Stage.tempo f => some f | _ => none)

/-! ## Paths, substring search, providers -/

/-- The ephemeral working directory `TMP_DIR`. -/
def TMP_DIR : String := "tmp_audio"

/-- `os.path.join` on a POSIX system. -/
def pathJoin (d f : String) : String := d ++ "/" ++ f

/-- `pat` is a prefix of the second list. -/
def charsLead : List Char → List Char → Bool
  | [], _ => true
  | _ :: _, [] => false
  | p :: ps, c :: cs => p = c && charsLead ps cs

/-- `pat` occurs as a contiguous run in the second list. -/
def charsHave (pat : List Char) : List Char → Bool
  | [] => pat.isEmpty
  | c :: cs => charsLead pat (c :: cs) || charsHave pat cs

/-- Python's `pat in s` on strings: substring containment. -/
def strHas (pat s : String) : Bool := charsHave pat.data s.data

/-- The two supported origins. -/
inductive Provider
  | youtube
  | spotify
deriving DecidableEq

/-- URL classification in `upload_audio` (lines 143–148): YouTube domains
first, then Spotify, otherwise a 400 for an unsupported origin. -/
def classifyUrl (url : String) : Option Provider :=
  if strHas "youtube.com" url || strHas "youtu.be" url then some Provider.youtube
  else if strHas "spotify.com" url then some Provider.spotify
  else none

/-! ## Acquisition (`/upload`, lines 138–152) -/

/-- The files a successful `/upload` call writes under `TMP_DIR`: the raw
download produced by the external downloader at its `-o` template, and the
converted copy written by `convert_to_mp3` at `{audio_id}.wav`. -/
def uploadWrittenFiles (audio_id url : String) : Option (List String) :=
  match classifyUrl url with
  | some Provider.youtube =>
    some [pathJoin TMP_DIR (audio_id ++ "_raw.wav"), pathJoin TMP_DIR (audio_id ++ ".wav")]
  | some Provider.spotify =>
    some [pathJoin TMP_DIR (audio_id ++ "_raw.mp3"), pathJoin TMP_DIR (audio_id ++ ".wav")]
  | none => none

/-- The diagnostic substrings `download_youtube_audio` recognises as an
authentication / anti-bot challenge (line 71). -/
def ytChallenges : List String :=
  ["Sign in to confirm you’re not a bot", "HTTP Error 403"]

/-- HTTP status raised when `yt-dlp` exits nonzero with the given stderr
text: 403 on a recognised challenge, 400 otherwise (lines 69–76). -/
def youtubeFailureStatus (stderr : String) : Nat :=
  if strHas "Sign in to confirm you’re not a bot" stderr || strHas "HTTP Error 403" stderr
  then 403 else 400

/-- HTTP status raised when `spotdl` exits nonzero: always the generic 400
(lines 89–90). -/
def spotifyFailureStatus (_stderr : String) : Nat := 400

/-- Failure status per provider. -/
def downloadFailureStatus : Provider → String → Nat
  | Provider.youtube, err => youtubeFailureStatus err
  | Provider.spotify, err => spotifyFailureStatus err

/-- The challenge substrings known for each provider's tool: two for
`yt-dlp`, none on the `spotdl` path. -/
def knownChallenges : Provider → List String
  | Provider.youtube => ytChallenges
  | Provider.spotify => []

/-! ## `/effects` endpoint (lines 154–173) and durable upload (115–130) -/

/-- The `x-upsert` file option `upload_to_supabase` passes (line 120). -/
def uploadUpsert : Bool := true

/-- What one successful `/effects` call produces besides its HTTP body: the
identifier, the durable object name it uploads to, the upsert flag of that
upload, and the local cleanup tasks it schedules. -/
structure EffectsOutcome where
  effects_id : String
  destination : String
  upsert : Bool
  cleanup : List String
deriving DecidableEq

/-- The `/effects` handler over the set of local files: 404 (`none`) when the
raw source `{audio_id}.wav` is absent; otherwise it derives the identifier,
processes into `{effects_id}.wav` and `{effects_id}.mp3`, uploads to
`processed/{effects_id}.mp3` with upsert, and schedules both local copies for
deletion. -/
def apply_effects (localFiles : List String) (req : EffectsRequest) : Option EffectsOutcome :=
  if pathJoin TMP_DIR (req.audio_id ++ ".wav") ∈ localFiles then
    let effects_id := requestEffectsId req
    some { effects_id := effects_id,
           destination := "processed/" ++ effects_id ++ ".mp3",
           upsert := uploadUpsert,
           cleanup := [pathJoin TMP_DIR (effects_id ++ ".mp3"),
                       pathJoin TMP_DIR (effects_id ++ ".wav")] }
  else none

/-! ## Retrieval (`/stream`, lines 175–181; `/download`, lines 183–191) -/

/-- What a retrieval endpoint answers: a local file, a durable-store URL, or
a 404. -/
inductive ResolveResult
  | localFile (path : String)
  | durableUrl (url : String)
  | notFound
deriving DecidableEq

/-- `GET /stream/{effects_id}`: serve `{effects_id}.mp3` locally when
present, otherwise answer the computed public durable URL, unconditionally. -/
def stream_effects (localFiles : List String) (supabaseUrl bucket effects_id : String) :
    ResolveResult :=
  let file_path := pathJoin TMP_DIR (effects_id ++ ".mp3")
  if file_path ∈ localFiles then ResolveResult.localFile file_path
  else ResolveResult.durableUrl
    (supabaseUrl ++ "/storage/v1/object/public/" ++ bucket ++ "/processed/" ++
      effects_id ++ ".mp3")

/-- `GET /download/{effects_id}`: 404 unless the local intermediate
`{effects_id}.wav` exists; on success it re-encodes to `{effects_id}.mp3`
and serves that file. It never consults the durable store. -/
def download_effects (localFiles : List String) (effects_id : String) : ResolveResult :=
  let wav_path := pathJoin TMP_DIR (effects_id ++ ".wav")
  let mp3_path := pathJoin TMP_DIR (effects_id ++ ".mp3")
  if wav_path ∈ localFiles then ResolveResult.localFile mp3_path
  else ResolveResult.notFound

end APBackend

namespace APBackend

/-! ## Helper lemmas -/

theorem beBytes_length (k n : Nat) : (beBytes k n).length = k := by
  induction k generalizing n with
  | zero => rfl
  | succ k ih => simp [beBytes, ih]

theorem sha1_length (msg : List Nat) : (sha1 msg).length = 20 := by
  unfold sha1
  simp [beBytes_length]

theorem uuid5Bytes_length (name : List Nat) : (uuid5Bytes name).length = 16 := by
  unfold uuid5Bytes
  simp [List.length_take, sha1_length]

theorem bytesHexChars_length (bs : List Nat) : (bytesHexChars bs).length = 2 * bs.length := by
  induction bs with
  | nil => rfl
  | cons b rest ih =>
    simp only [bytesHexChars, List.map_cons, List.flatten_cons, List.length_append,
      List.length_cons, byteHexChars, List.length_nil] at *
    omega

theorem idChars_length (name : String) : (idChars name).length = 8 := by
  unfold idChars
  rw [List.length_take, bytesHexChars_length, uuid5Bytes_length]
  decide

/-- Every derived identifier is an 8-character string, so it is never the
7-character sentinel suffix. -/
theorem effectsIdOf_ne_sentinel (a : String) (s r : ℚ) (b : Bool) :
    effectsIdOf a s r b ≠ "rawcopy" := by
  intro h
  have hlen := congrArg (fun t : String => t.data.length) h
  simp only [effectsIdOf] at hlen
  rw [idChars_length] at hlen
  simp at hlen

/-- Cancel a shared trailing string. -/
theorem strAppend_cancel {a b t : String} (h : a ++ t = b ++ t) : a = b := by
  apply String.ext
  have hd := congrArg String.data h
  simp only [String.data_append] at hd
  exact List.append_cancel_right hd

/-! ## Validation of the hash embedding against published test vectors -/

/-- FIPS 180-1 test vector: SHA-1 of `"abc"`. -/
theorem sha1_vector_abc :
    sha1 [97, 98, 99] =
      [0xa9, 0x99, 0x3e, 0x36, 0x47, 0x06, 0x81, 0x6a, 0xba, 0x3e,
       0x25, 0x71, 0x78, 0x50, 0xc2, 0x6c, 0x9c, 0xd0, 0xd8, 0x9d] := by
  decide

/-- SHA-1 of the empty message. -/
theorem sha1_vector_empty :
    sha1 [] =
      [0xda, 0x39, 0xa3, 0xee, 0x5e, 0x6b, 0x4b, 0x0d, 0x32, 0x55,
       0xbf, 0xef, 0x95, 0x60, 0x18, 0x90, 0xaf, 0xd8, 0x07, 0x09] := by
  decide

/-- Cross-check with CPython:
`uuid.uuid5(uuid.NAMESPACE_DNS, "a1b2c3_rawcopy").hex[:8] == "b669efb8"`. -/
theorem uuid5_vector :
    effectsIdOf "a1b2c3" 1 0 false = "b669efb8" := by
  decide

/-! ## Claims -/

/-- C1 (counterexample): the effects identifier is the uuid5 hash of
`f"{audio_id}_rawcopy"` truncated to 8 hex characters (32 bits), so two
distinct source ids *can* yield the same no-op identifier: the six-character
source ids `"00096e"` and `"0063cb"` both map to `"6375ac51"`. -/
theorem noop_id_collision :
    "00096e" ≠ "0063cb" ∧
    effectsIdOf "00096e" 1 0 false = effectsIdOf "0063cb" 1 0 false := by
  constructor
  · decide
  · decide

/-- C1 (amended): for every source id, the no-op tuple yields the same
identifier whether the defaults are omitted or supplied explicitly; the
identifier is derived from the fixed literal sentinel suffix `"rawcopy"`,
which is distinct from every derived (hash-output) identifier; and two
distinct source ids processed with the no-op tuple always yield distinct
hash-input names — though, as `noop_id_collision` shows, the truncated
8-hex identifiers themselves can collide. -/
theorem noop_sentinel_identity (a b : String) (s r : ℚ) (bb : Bool) (hab : a ≠ b) :
    requestEffectsId (mkEffectsRequest a none none none) =
      requestEffectsId (mkEffectsRequest a (some 1) (some 0) (some false)) ∧
    suffixOf 1 0 false = "rawcopy" ∧
    effectsIdOf a s r bb ≠ "rawcopy" ∧
    variantName a 1 0 false ≠ variantName b 1 0 false := by
  refine ⟨rfl, rfl, effectsIdOf_ne_sentinel a s r bb, fun h => hab ?_⟩
  have h' : (a ++ "_") ++ suffixOf 1 0 false = (b ++ "_") ++ suffixOf 1 0 false := h
  exact strAppend_cancel (strAppend_cancel h')

/-- C1 witness. -/
theorem noop_sentinel_identity_witness :
    "00096e" ≠ "0063cb" ∧
    (requestEffectsId (mkEffectsRequest "00096e" none none none) =
      requestEffectsId (mkEffectsRequest "00096e" (some 1) (some 0) (some false)) ∧
    suffixOf 1 0 false = "rawcopy" ∧
    effectsIdOf "00096e" 1 0 false ≠ "rawcopy" ∧
    variantName "00096e" 1 0 false ≠ variantName "0063cb" 1 0 false) :=
  ⟨by decide, noop_sentinel_identity "00096e" "0063cb" 1 0 false (by decide)⟩

/-- C2: the variant-identifier derivation is a pure function of
`(source_id, speed, reverb, bass_boost)`: it reads no state, so any two
evaluations on equal inputs — in one process run or across restarts — give
equal identifiers. -/
theorem effectsIdOf_deterministic (a a' : String) (s s' r r' : ℚ) (b b' : Bool)
    (ha : a = a') (hs : s = s') (hr : r = r') (hb : b = b') :
    effectsIdOf a s r b = effectsIdOf a' s' r' b' := by
  subst ha hs hr hb
  rfl

/-- C2 witness. -/
theorem effectsIdOf_deterministic_witness :
    "a1b2c3" = "a1b2c3" ∧
    effectsIdOf "a1b2c3" 1 0 false = effectsIdOf "a1b2c3" 1 0 false :=
  ⟨rfl, effectsIdOf_deterministic "a1b2c3" "a1b2c3" 1 1 0 0 false false rfl rfl rfl rfl⟩

/-- C3 (counterexample): a requested speed of `4.0` (outside the claimed
per-stage bound of `2.0`) compiles to a *single* tempo stage carrying the
full factor `4.0`, not to multiple chained stages each within the bound. -/
theorem speed_not_decomposed :
    tempoFactors (effectsChain 4 0 false) = [4] ∧ ¬ ((4 : ℚ) ≤ 2) := by
  constructor
  · decide
  · norm_num

/-- C3 (amended): for every requested speed other than `1.0`, the compiled
chain contains exactly one tempo stage, carrying the requested speed
unchanged (so the product of the tempo factors equals the requested speed
and nothing is clamped) — no decomposition into bounded stages occurs. -/
theorem tempo_single_stage (s r : ℚ) (b : Bool) (hs : s ≠ 1) :
    tempoFactors (effectsChain s r b) = [s] ∧
    (tempoFactors (effectsChain s r b)).prod = s := by
  have h : tempoFactors (effectsChain s r b) = [s] := by
    unfold effectsChain tempoFactors
    rw [if_pos hs]
    split_ifs <;> simp
  exact ⟨h, by rw [h]; simp⟩

/-- C3 witness. -/
theorem tempo_single_stage_witness :
    (4 : ℚ) ≠ 1 ∧
    (tempoFactors (effectsChain 4 0 false) = [4] ∧
      (tempoFactors (effectsChain 4 0 false)).prod = 4) :=
  ⟨by norm_num, tempo_single_stage 4 0 false (by norm_num)⟩

/-- C4 (counterexample): the no-op tuple does not compile to zero stages —
the unconditional smoothing stage `lowpass(3000)` is always appended, so the
chain has one stage, and the output passes through a 3 kHz low-pass filter
rather than being a lossless copy. -/
theorem noop_chain_not_zero_stages :
    (effectsChain 1 0 false).length = 1 ∧ (1 : Nat) ≠ 0 := by
  constructor
  · decide
  · decide

/-- C4 (amended): processing a source with the no-op parameter tuple applies
exactly one transformation stage, the always-present `lowpass(3000)`
smoothing stage; the result is therefore a low-pass-filtered re-encode of
the input in the delivery codec, not a byte-for-byte or lossless copy. -/
theorem noop_chain_single_lowpass :
    effectsChain 1 0 false = [Stage.lowpass 3000] := by
  decide

/-- C5 (counterexample): for an identifier with no local file and no known
prior placement, `stream_effects` still answers the computed durable URL —
it never returns NotFound. -/
theorem resolve_unknown_not_notFound :
    stream_effects [] "https://sb.example" "bucket" "deadbeef" =
      ResolveResult.durableUrl
        "https://sb.example/storage/v1/object/public/bucket/processed/deadbeef.mp3" ∧
    ResolveResult.durableUrl
        "https://sb.example/storage/v1/object/public/bucket/processed/deadbeef.mp3" ≠
      ResolveResult.notFound := by
  constructor
  · decide
  · decide

/-- C5 (amended): retrieval checks the local cache first and serves the
local copy when `{id}.mp3` exists; when it does not, it *unconditionally*
answers the computed durable-store URL, with no check of any prior
placement; it never returns NotFound. -/
theorem stream_local_first (files : List String) (u b id : String) :
    (pathJoin TMP_DIR (id ++ ".mp3") ∈ files →
      stream_effects files u b id =
        ResolveResult.localFile (pathJoin TMP_DIR (id ++ ".mp3"))) ∧
    (pathJoin TMP_DIR (id ++ ".mp3") ∉ files →
      stream_effects files u b id = ResolveResult.durableUrl
        (u ++ "/storage/v1/object/public/" ++ b ++ "/processed/" ++ id ++ ".mp3")) ∧
    stream_effects files u b id ≠ ResolveResult.notFound := by
  unfold stream_effects
  by_cases h : pathJoin TMP_DIR (id ++ ".mp3") ∈ files <;> simp [h]

/-- C5 witness. -/
theorem stream_local_first_witness :
    pathJoin TMP_DIR ("abc123" ++ ".mp3") ∈ ["tmp_audio/abc123.mp3"] ∧
    stream_effects ["tmp_audio/abc123.mp3"] "https://sb.example" "bkt" "abc123" =
      ResolveResult.localFile (pathJoin TMP_DIR ("abc123" ++ ".mp3")) ∧
    stream_effects [] "https://sb.example" "bkt" "abc123" ≠ ResolveResult.notFound :=
  ⟨by decide,
   (stream_local_first ["tmp_audio/abc123.mp3"] "https://sb.example" "bkt" "abc123").1
     (by decide),
   (stream_local_first [] "https://sb.example" "bkt" "abc123").2.2⟩

/-- C6: the `/effects` handler is a pure function of the request (given the
local files), so issuing the same request twice returns the same
`effects_id` both times; and both runs write the *same* durable object name
`processed/{effects_id}.mp3`, with the upsert (overwrite) flag set, so no
second distinct durable object is created. -/
theorem effects_idempotent (files : List String) (req : EffectsRequest)
    (h : pathJoin TMP_DIR (req.audio_id ++ ".wav") ∈ files) :
    apply_effects files req = apply_effects files req ∧
    apply_effects files req = some
      { effects_id := requestEffectsId req,
        destination := "processed/" ++ requestEffectsId req ++ ".mp3",
        upsert := true,
        cleanup := [pathJoin TMP_DIR (requestEffectsId req ++ ".mp3"),
                    pathJoin TMP_DIR (requestEffectsId req ++ ".wav")] } := by
  refine ⟨rfl, ?_⟩
  unfold apply_effects
  rw [if_pos h]
  rfl

/-- C6 witness. -/
theorem effects_idempotent_witness :
    pathJoin TMP_DIR ("a1b2c3" ++ ".wav") ∈ ["tmp_audio/a1b2c3.wav"] ∧
    (apply_effects ["tmp_audio/a1b2c3.wav"] ⟨"a1b2c3", 1, 0, false⟩ =
       apply_effects ["tmp_audio/a1b2c3.wav"] ⟨"a1b2c3", 1, 0, false⟩ ∧
     apply_effects ["tmp_audio/a1b2c3.wav"] ⟨"a1b2c3", 1, 0, false⟩ = some
       { effects_id := requestEffectsId ⟨"a1b2c3", 1, 0, false⟩,
         destination := "processed/" ++ requestEffectsId ⟨"a1b2c3", 1, 0, false⟩ ++ ".mp3",
         upsert := true,
         cleanup := [pathJoin TMP_DIR (requestEffectsId ⟨"a1b2c3", 1, 0, false⟩ ++ ".mp3"),
                     pathJoin TMP_DIR (requestEffectsId ⟨"a1b2c3", 1, 0, false⟩ ++ ".wav")] }) :=
  ⟨by decide,
   effects_idempotent ["tmp_audio/a1b2c3.wav"] ⟨"a1b2c3", 1, 0, false⟩ (by decide)⟩

/-- C7: the compiled chain is a subsequence of the fixed order
tempo → reverb → bass → lowpass; the smoothing `lowpass(3000)` is always
present and always last; a tempo stage appears exactly when `speed ≠ 1` and
carries the requested speed; a reverb stage appears exactly when
`reverb > 0` and carries the percentage unchanged (the identity linear
scale onto the native `reverberance` range, so `100` maps to the native
maximum `100` with no clamping); a bass stage appears exactly when
`bass_boost` and carries the fixed gain `10`. -/
theorem chain_fixed_order (s r : ℚ) (b : Bool) (x y : ℚ) (g : ℤ) :
    (effectsChain s r b).Sublist
      [Stage.tempo s, Stage.reverb r, Stage.bass 10, Stage.lowpass 3000] ∧
    (effectsChain s r b).getLast? = some (Stage.lowpass 3000) ∧
    (Stage.tempo x ∈ effectsChain s r b ↔ (x = s ∧ s ≠ 1)) ∧
    (Stage.reverb y ∈ effectsChain s r b ↔ (y = r ∧ r > 0)) ∧
    (Stage.bass g ∈ effectsChain s r b ↔ (g = 10 ∧ b = true)) ∧
    Stage.lowpass 3000 ∈ effectsChain s r b := by
  unfold effectsChain
  by_cases hs : s = 1 <;> by_cases hr : r > 0 <;> cases b <;>
    simp [hs, hr, and_comm]

/-- C8 (counterexample): a successful acquisition writes *two* files under
the ephemeral area — the raw download and the converted copy — not exactly
one. -/
theorem upload_writes_two_files :
    (uploadWrittenFiles "a1b2c3" "https://www.youtube.com/watch?v=dQw4").map List.length =
      some 2 ∧ (2 : Nat) ≠ 1 := by
  constructor
  · decide
  · decide

/-- C8 (amended): every successful acquisition writes exactly two files
under the ephemeral working area — the downloader's raw output and the
converted copy — both at paths carrying the freshly generated source id, so
no pre-existing asset file (which bears a different id) is written. -/
theorem upload_frame (audio_id url : String) (files : List String)
    (h : uploadWrittenFiles audio_id url = some files) :
    files.length = 2 ∧
    (∀ p ∈ files, ∃ rest, p = pathJoin TMP_DIR (audio_id ++ rest)) ∧
    (∀ e, (∀ rest, e ≠ pathJoin TMP_DIR (audio_id ++ rest)) → e ∉ files) := by
  have main : files.length = 2 ∧ ∀ p ∈ files, ∃ rest, p = pathJoin TMP_DIR (audio_id ++ rest) := by
    unfold uploadWrittenFiles at h
    cases hc : classifyUrl url with
    | none => rw [hc] at h; cases h
    | some prov =>
      cases prov <;> rw [hc] at h <;> injection h with h <;> subst h <;>
        refine ⟨rfl, fun p hp => ?_⟩ <;> rcases List.mem_cons.mp hp with rfl | hp' <;>
        first
          | exact ⟨"_raw.wav", rfl⟩
          | exact ⟨"_raw.mp3", rfl⟩
          | (rcases List.mem_cons.mp hp' with rfl | hp'' <;>
              [exact ⟨".wav", rfl⟩; cases hp''])
  refine ⟨main.1, main.2, fun e he hmem => ?_⟩
  obtain ⟨rest, hrest⟩ := main.2 e hmem
  exact he rest hrest

/-- C8 witness. -/
theorem upload_frame_witness :
    uploadWrittenFiles "a1b2c3" "https://www.youtube.com/watch?v=dQw4" =
      some ["tmp_audio/a1b2c3_raw.wav", "tmp_audio/a1b2c3.wav"] ∧
    (["tmp_audio/a1b2c3_raw.wav", "tmp_audio/a1b2c3.wav"] : List String).length = 2 :=
  ⟨by decide,
   (upload_frame "a1b2c3" "https://www.youtube.com/watch?v=dQw4"
      ["tmp_audio/a1b2c3_raw.wav", "tmp_audio/a1b2c3.wav"] (by decide)).1⟩

/-- C9: a failed acquisition is classified 403 (AccessDenied) exactly when
the tool's stderr contains one of the challenge substrings the adapter
knows for that provider — two for `yt-dlp`, none on the `spotdl` path — and
400 (generic DownloadFailed) otherwise; the two statuses are distinct. -/
theorem challenge_classification (p : Provider) (err : String) :
    (downloadFailureStatus p err = 403 ↔
      (knownChallenges p).any (fun c => strHas c err) = true) ∧
    (downloadFailureStatus p err = 400 ↔
      (knownChallenges p).any (fun c => strHas c err) = false) ∧
    (403 : Nat) ≠ 400 := by
  cases p
  · cases hA : strHas "Sign in to confirm you’re not a bot" err <;>
      cases hB : strHas "HTTP Error 403" err <;>
      simp [downloadFailureStatus, youtubeFailureStatus, knownChallenges, ytChallenges,
        hA, hB]
  · simp [downloadFailureStatus, spotifyFailureStatus, knownChallenges]

/-- C10: `/download` consults only the local tier: whenever the local
intermediate `{effects_id}.wav` is absent it answers 404, and it never
answers a durable-store URL, whatever the durable store holds.  The absence
is the steady state after the cleanup `/effects` schedules, since every
successful `/effects` call schedules exactly that `.wav` (and the `.mp3`)
for local deletion. -/
theorem download_local_tier_only (files : List String) (id : String) :
    (pathJoin TMP_DIR (id ++ ".wav") ∉ files →
      download_effects files id = ResolveResult.notFound) ∧
    (∀ url, download_effects files id ≠ ResolveResult.durableUrl url) ∧
    (∀ req o, apply_effects files req = some o →
      pathJoin TMP_DIR (o.effects_id ++ ".wav") ∈ o.cleanup ∧
      pathJoin TMP_DIR (o.effects_id ++ ".mp3") ∈ o.cleanup) := by
  refine ⟨fun h => ?_, fun url => ?_, fun req o h => ?_⟩
  · unfold download_effects
    rw [if_neg h]
  · unfold download_effects
    by_cases h' : pathJoin TMP_DIR (id ++ ".wav") ∈ files <;> simp [h']
  · unfold apply_effects at h
    split at h
    · injection h with h
      subst h
      constructor <;> simp
    · cases h

/-- C10 witness. -/
theorem download_local_tier_only_witness :
    pathJoin TMP_DIR ("deadbeef" ++ ".wav") ∉ ([] : List String) ∧
    download_effects [] "deadbeef" = ResolveResult.notFound :=
  ⟨by decide, (download_local_tier_only [] "deadbeef").1 (by decide)⟩

end APBackend
